import Mathlib

/-!
# Verification of the Easter Island raycasting shooter (src/game.js)

Shallow embedding of the algorithmic core of `src/game.js`:
the grid map, the DDA wall caster, floor-pixel occlusion, the ray fan,
axis-separated player collision, the weapon/reload state machine and
hit-scan combat.  Numeric quantities that the source computes with IEEE
doubles are modelled over `ℚ` where the code performs only field
arithmetic, comparisons and `Math.floor`, and over `ℝ` where the code
uses trigonometric functions (`Math.cos`, `Math.sin`, `Math.atan2`,
`Math.sqrt`, `Math.PI`).
-/

namespace EasterIsland

/-! ## Grid map (src/game.js lines 193-212)

`islandMap` is the literal 16×16 occupancy grid from the source.
`0` is an empty cell, `>0` a wall variant. -/

def islandMap : List (List ℕ) :=
  [ [1,1,1,1,1,1,1,1,1,1,1,1,1,1,1,1],
    [1,0,0,0,0,0,0,0,0,0,0,0,0,0,0,1],
    [1,0,0,0,0,1,1,1,0,0,1,1,1,0,0,1],
    [1,0,0,0,0,1,0,1,0,0,1,0,1,0,0,1],
    [1,0,0,0,0,1,0,1,0,0,1,0,1,0,0,1],
    [1,0,0,0,0,1,1,1,0,0,1,1,1,0,0,1],
    [1,0,0,0,0,0,0,0,0,0,0,0,0,0,0,1],
    [1,0,0,1,1,1,0,0,0,0,0,1,1,1,0,1],
    [1,0,0,1,0,1,0,0,0,0,0,1,0,1,0,1],
    [1,0,0,1,1,1,0,0,0,0,0,1,1,1,0,1],
    [1,0,0,0,0,0,0,0,0,0,0,0,0,0,0,1],
    [1,0,0,0,0,1,1,1,0,0,1,1,1,0,0,1],
    [1,0,0,0,0,1,0,1,0,0,1,0,1,0,0,1],
    [1,0,0,0,0,1,0,1,0,0,1,0,1,0,0,1],
    [1,0,0,0,0,1,1,1,0,0,1,1,1,0,0,1],
    [1,1,1,1,1,1,1,1,1,1,1,1,1,1,1,1] ]

/-- `mapWidth = map[0].length` (line 211). -/
def mapWidth : ℤ := 16

/-- `mapHeight = map.length` (line 212). -/
def mapHeight : ℤ := 16

/-- `maxRenderDist` (line 243). -/
def maxRenderDist : ℚ := 20

/-- Cell lookup `map[y][x]`, returning `none` when either index is out of
range (in JavaScript an out-of-range column yields `undefined`; rows are
only accessed after an explicit bounds check in the source). -/
def cellAt (x y : ℤ) : Option ℕ :=
  if 0 ≤ y ∧ y < mapHeight ∧ 0 ≤ x ∧ x < mapWidth then
    some ((islandMap.getD y.toNat []).getD x.toNat 0)
  else
    none

/-- The wall test `map[mapY][mapX] > 0` (line 657); an out-of-range
lookup is not a wall (the loop has already broken out on the bounds
check before this test can see one). -/
def isWall (x y : ℤ) : Bool :=
  match cellAt x y with
  | some v => v > 0
  | none => false

/-- The collision test `map[…][…] === 0` (lines 1131, 1134):
`undefined === 0` is `false`, so an out-of-range cell blocks movement. -/
def isOpen (x y : ℤ) : Bool :=
  match cellAt x y with
  | some v => v = 0
  | none => false

/-! ## DDA wall caster (src/game.js lines 611-672)

The per-ray grid march of `castRays`.  The source computes the ray
direction as `(cos rayAngle, sin rayAngle)`; the march itself only uses
field arithmetic on the direction components, so it is embedded over `ℚ`
parametrised by the direction vector. -/

/-- Per-ray constants: `deltaDistX/Y`, `stepX/Y` (lines 620-638). -/
structure DdaRay where
  deltaDistX : ℚ
  deltaDistY : ℚ
  stepX : ℤ
  stepY : ℤ

/-- Mutable march state: `sideDistX/Y`, `mapX/Y`. -/
structure DdaState where
  sideDistX : ℚ
  sideDistY : ℚ
  mapX : ℤ
  mapY : ℤ

/-- `deltaDistX = rayDirX === 0 ? 1e30 : Math.abs(1 / rayDirX)`
(lines 620-621). -/
def deltaDist (d : ℚ) : ℚ :=
  if d = 0 then 10 ^ 30 else |1 / d|

/-- Step direction and initial side distance for one axis
(lines 625-638): for `d < 0` the step is `-1` and the side distance is
`(pos - cell) * delta`, otherwise the step is `1` and the side distance
is `(cell + 1 - pos) * delta`. -/
def axisInit (pos : ℚ) (cell : ℤ) (d delta : ℚ) : ℤ × ℚ :=
  if d < 0 then (-1, (pos - cell) * delta)
  else (1, ((cell : ℚ) + 1 - pos) * delta)

/-- Build the per-ray constants and the initial state from the player
position and the ray direction (lines 616-638). -/
def rayInit (px py dirX dirY : ℚ) : DdaRay × DdaState :=
  let mapX : ℤ := ⌊px⌋
  let mapY : ℤ := ⌊py⌋
  let dX := deltaDist dirX
  let dY := deltaDist dirY
  let ix := axisInit px mapX dirX dX
  let iy := axisInit py mapY dirY dY
  (⟨dX, dY, ix.1, iy.1⟩, ⟨ix.2, iy.2, mapX, mapY⟩)

/-- One iteration of the march body (lines 643-651): advance along the
axis with the smaller accumulated side distance; returns the new state
and the `side` flag (0 = x-step, 1 = y-step). -/
def ddaStep (r : DdaRay) (s : DdaState) : DdaState × ℕ :=
  if s.sideDistX < s.sideDistY then
    ({ s with sideDistX := s.sideDistX + r.deltaDistX, mapX := s.mapX + r.stepX }, 0)
  else
    ({ s with sideDistY := s.sideDistY + r.deltaDistY, mapY := s.mapY + r.stepY }, 1)

/-- The bounds check `mapY < 0 || mapY >= mapHeight || mapX < 0 ||
mapX >= mapWidth` (line 653). -/
def outOfBounds (s : DdaState) : Bool :=
  s.mapY < 0 ∨ s.mapY ≥ mapHeight ∨ s.mapX < 0 ∨ s.mapX ≥ mapWidth

/-- The `while (!hit)` loop (lines 641-660), with explicit fuel.  Each
iteration steps the grid position, then breaks out when it has left the
map or entered a wall cell.  `none` means the fuel ran out, which the
termination theorem shows cannot happen from an in-bounds start with
fuel 34. -/
def ddaRun (r : DdaRay) : ℕ → DdaState → Option (DdaState × ℕ)
  | 0, _ => none
  | n + 1, s =>
    let p := ddaStep r s
    if outOfBounds p.1 then some p
    else if isWall p.1.mapX p.1.mapY then some p
    else ddaRun r n p.1

/-- Fuel that dominates every possible iteration count: the loop steps
one of the two grid coordinates monotonically each iteration, so at most
`mapWidth + 1` x-steps and `mapHeight + 1` y-steps can occur before the
bounds check fires. -/
def ddaFuel : ℕ := 34

/-- Run the march of one ray from the player position along the given
direction vector. -/
def castRayRun (px py dirX dirY : ℚ) : Option (DdaState × ℕ) :=
  ddaRun (rayInit px py dirX dirY).1 ddaFuel (rayInit px py dirX dirY).2

/-- The recorded depth of one ray (lines 662-672):
`perpWallDist = side === 0 ? sideDistX - deltaDistX : sideDistY - deltaDistY`
on a hit, `maxRenderDist` otherwise (the latter branch is dead in the
source, `hit` being true on every loop exit; here it is reachable only
on fuel exhaustion, ruled out by the termination theorem). -/
def castRayDepth (px py dirX dirY : ℚ) : ℚ :=
  match castRayRun px py dirX dirY with
  | some (s, side) =>
    if side = 0 then s.sideDistX - (rayInit px py dirX dirY).1.deltaDistX
    else s.sideDistY - (rayInit px py dirX dirY).1.deltaDistY
  | none => maxRenderDist

/-! ### Evaluation lemmas for the march -/

lemma ddaRun_step (r : DdaRay) (n : ℕ) (s s2 : DdaState) (sd : ℕ)
    (h : ddaStep r s = (s2, sd)) (h1 : outOfBounds s2 = false)
    (h2 : isWall s2.mapX s2.mapY = false) :
    ddaRun r (n + 1) s = ddaRun r n s2 := by
  show (let p := ddaStep r s;
    if outOfBounds p.1 then some p
    else if isWall p.1.mapX p.1.mapY then some p
    else ddaRun r n p.1) = ddaRun r n s2
  rw [h]
  simp [h1, h2]

lemma ddaRun_hit (r : DdaRay) (n : ℕ) (s s2 : DdaState) (sd : ℕ)
    (h : ddaStep r s = (s2, sd))
    (h2 : (outOfBounds s2 || isWall s2.mapX s2.mapY) = true) :
    ddaRun r (n + 1) s = some (s2, sd) := by
  show (let p := ddaStep r s;
    if outOfBounds p.1 then some p
    else if isWall p.1.mapX p.1.mapY then some p
    else ddaRun r n p.1) = some (s2, sd)
  rw [h]
  rcases Bool.or_eq_true_iff.mp h2 with h3 | h3 <;> simp [h3]

lemma castRayRun_eval (px py dirX dirY : ℚ) (r : DdaRay) (s0 : DdaState)
    (hi : rayInit px py dirX dirY = (r, s0)) :
    castRayRun px py dirX dirY = ddaRun r ddaFuel s0 := by
  unfold castRayRun
  rw [hi]

lemma castRayDepth_eval (px py dirX dirY : ℚ) (r : DdaRay) (s0 s : DdaState) (sd : ℕ)
    (hi : rayInit px py dirX dirY = (r, s0))
    (hrun : ddaRun r ddaFuel s0 = some (s, sd)) :
    castRayDepth px py dirX dirY =
      if sd = 0 then s.sideDistX - r.deltaDistX else s.sideDistY - r.deltaDistY := by
  unfold castRayDepth
  rw [castRayRun_eval px py dirX dirY r s0 hi, hrun, hi]

/-! ### Termination of the march -/

/-- Decreasing measure for the march: how many more grid steps each axis
can take before its coordinate leaves the map in its step direction. -/
def ddaMeasure (r : DdaRay) (s : DdaState) : ℕ :=
  (if r.stepX = 1 then mapWidth - s.mapX else s.mapX + 1).toNat +
  (if r.stepY = 1 then mapHeight - s.mapY else s.mapY + 1).toNat

lemma ddaMeasure_step (r : DdaRay) (s : DdaState)
    (hx : r.stepX = 1 ∨ r.stepX = -1) (hy : r.stepY = 1 ∨ r.stepY = -1)
    (hin : outOfBounds s = false) :
    ddaMeasure r (ddaStep r s).1 + 1 = ddaMeasure r s := by
  simp only [outOfBounds, decide_eq_false_iff_not, not_or, not_lt, not_le,
    mapWidth, mapHeight] at hin
  unfold ddaStep ddaMeasure
  by_cases hc : s.sideDistX < s.sideDistY <;>
    rcases hx with hx | hx <;> rcases hy with hy | hy <;>
      simp [hc, hx, hy, mapWidth, mapHeight] <;> omega

lemma ddaMeasure_pos (r : DdaRay) (s : DdaState) (hin : outOfBounds s = false) :
    1 ≤ ddaMeasure r s := by
  simp only [outOfBounds, decide_eq_false_iff_not, not_or, not_lt, not_le,
    mapWidth, mapHeight] at hin
  unfold ddaMeasure
  by_cases h1 : r.stepX = 1 <;> simp [h1, mapWidth, mapHeight] <;> omega

/-- The `while (!hit)` loop exits within any fuel bound dominating the
measure: each iteration moves one coordinate one cell in a fixed
direction, so from an in-bounds cell the march reaches a wall cell or
leaves the map in finitely many steps. -/
lemma ddaRun_total (r : DdaRay)
    (hx : r.stepX = 1 ∨ r.stepX = -1) (hy : r.stepY = 1 ∨ r.stepY = -1) :
    ∀ n : ℕ, ∀ s : DdaState, outOfBounds s = false → ddaMeasure r s ≤ n →
      (ddaRun r n s).isSome = true := by
  intro n
  induction n with
  | zero =>
    intro s hin hm
    exact absurd (le_trans (ddaMeasure_pos r s hin) hm) (by omega)
  | succ n ih =>
    intro s hin hm
    show (let p := ddaStep r s;
      if outOfBounds p.1 then some p
      else if isWall p.1.mapX p.1.mapY then some p
      else ddaRun r n p.1).isSome = true
    by_cases h1 : outOfBounds (ddaStep r s).1 = true
    · simp [h1]
    · rw [Bool.not_eq_true] at h1
      by_cases h2 : isWall (ddaStep r s).1.mapX (ddaStep r s).1.mapY = true
      · simp [h1, h2]
      · rw [Bool.not_eq_true] at h2
        simp only [h1, h2, Bool.false_eq_true, if_false]
        apply ih _ h1
        have := ddaMeasure_step r s hx hy hin
        omega

lemma rayInit_step_pm (pos : ℚ) (cell : ℤ) (d delta : ℚ) :
    (axisInit pos cell d delta).1 = 1 ∨ (axisInit pos cell d delta).1 = -1 := by
  unfold axisInit
  split <;> simp

/-- Every ray started from an in-bounds grid cell produces a hit result
within the fuel bound. -/
lemma castRayRun_isSome (px py dirX dirY : ℚ)
    (h1 : 0 ≤ ⌊px⌋) (h2 : ⌊px⌋ < mapWidth) (h3 : 0 ≤ ⌊py⌋) (h4 : ⌊py⌋ < mapHeight) :
    (castRayRun px py dirX dirY).isSome = true := by
  unfold castRayRun
  apply ddaRun_total
  · exact rayInit_step_pm px ⌊px⌋ dirX (deltaDist dirX)
  · exact rayInit_step_pm py ⌊py⌋ dirY (deltaDist dirY)
  · show outOfBounds (rayInit px py dirX dirY).2 = false
    simp only [outOfBounds, decide_eq_false_iff_not, not_or, not_lt, not_le]
    exact ⟨h3, h4, h1, h2⟩
  · have ex := rayInit_step_pm px ⌊px⌋ dirX (deltaDist dirX)
    have ey := rayInit_step_pm py ⌊py⌋ dirY (deltaDist dirY)
    show ddaMeasure (rayInit px py dirX dirY).1 (rayInit px py dirX dirY).2 ≤ ddaFuel
    have hsx : (rayInit px py dirX dirY).1.stepX
        = (axisInit px ⌊px⌋ dirX (deltaDist dirX)).1 := rfl
    have hsy : (rayInit px py dirX dirY).1.stepY
        = (axisInit py ⌊py⌋ dirY (deltaDist dirY)).1 := rfl
    have hmx : (rayInit px py dirX dirY).2.mapX = ⌊px⌋ := rfl
    have hmy : (rayInit px py dirX dirY).2.mapY = ⌊py⌋ := rfl
    unfold ddaMeasure ddaFuel
    rw [hsx, hsy, hmx, hmy]
    simp only [mapWidth, mapHeight] at h2 h4 ⊢
    rcases ex with ex | ex <;> rcases ey with ey | ey <;> rw [ex, ey] <;>
      simp <;> omega

/-! ## Floor caster occlusion (src/game.js lines 777-891)

Only the occlusion logic of `drawFloorPerspective` is needed here: the
squared depth buffer (lines 786-790) and the per-pixel visibility test
(lines 843-853).  Texture sampling and shading write colours and do not
feed back into the simulation. -/

/-- `zBufSq[i] = zBuffer[i] * zBuffer[i]` (lines 786-790). -/
def zBufSq (zBuffer : List ℚ) : List ℚ :=
  zBuffer.map (fun d => d * d)

/-- Squared world distance of a floor pixel from the player
(lines 846-848): `dx*dx + dy*dy`. -/
def floorDistSq (wx wy px py : ℚ) : ℚ :=
  (wx - px) * (wx - px) + (wy - py) * (wy - py)

/-- The per-pixel occlusion test (lines 843-853): `visible` starts
`true`; when the ray column of the pixel is inside the depth buffer and the
squared world distance exceeds the squared depth value, the pixel is
suppressed.  A column outside the buffer (in particular every column
when the buffer is empty) is always visible. -/
def floorPixelVisible (zBufSqList : List ℚ) (col : ℤ) (distSq : ℚ) : Bool :=
  if 0 ≤ col ∧ col < (zBufSqList.length : ℤ) then
    if distSq > zBufSqList.getD col.toNat 0 then false else true
  else true

/-- The depth-buffer argument `gameLoop` passes to the floor caster in
every frame: `drawFloorPerspective([])` at lines 1321 (menu frame) and
1448 (playing frame) — an empty array, explicitly commented "Pass an
empty array to indicate no occlusion for the floor." -/
def gameLoopFloorDepthArg : List ℚ := []

/-! ## Ray fan (src/game.js lines 235, 239, 611-615) -/

/-- `FOV = Math.PI * 100 / 180` (line 235). -/
noncomputable def FOV : ℝ := Real.pi * 100 / 180

/-- `numRays = 480` (line 239). -/
def numRays : ℕ := 480

/-- `rayAngle = player.angle - FOV / 2 + (FOV * i) / numRays`
(line 613). -/
noncomputable def rayAngle (playerAngle : ℝ) (i : ℕ) : ℝ :=
  playerAngle - FOV / 2 + (FOV * i) / numRays

/-! ## Wall slice vertical placement (src/game.js lines 673-748)

Lines 677-679 (the pre-patch centred computation) and lines 682-687
(the "AFTER" patch block) both declare `const wallHeight`, `startY`,
`endY` in the same block scope — in JavaScript this redeclaration is a
SyntaxError.  The patch comment states the intended bindings are the
"AFTER" ones, which are embedded here.  Two draw calls remain in the
loop body: the draw of the patch block (lines 690-705, destination rows
`startY` to `startY + (endY - startY)`) and the original draw
(lines 717-748, destination rows `startY` to `startY + wallHeight`),
the latter painting last. -/

/-- `startY = Math.max(0, horizon - wallHeight)` (line 686). -/
def wallStartY (horizon wallHeight : ℚ) : ℚ :=
  max 0 (horizon - wallHeight)

/-- `endY = horizon` (line 687). -/
def wallEndY (horizon : ℚ) : ℚ := horizon

/-- Bottom screen row of the draw call of the patch block (lines 690-705):
destination `startY` with height `endY - startY`. -/
def patchDrawBottom (horizon wallHeight : ℚ) : ℚ :=
  wallStartY horizon wallHeight + (wallEndY horizon - wallStartY horizon wallHeight)

/-- Bottom screen row of the final (original) draw call
(lines 717-748): destination `startY` with height `wallHeight`. -/
def mainDrawBottom (horizon wallHeight : ℚ) : ℚ :=
  wallStartY horizon wallHeight + wallHeight

/-! ## Player collision (src/game.js lines 1128-1137)

The axis-separated collision step at the end of `updatePlayer`.  The
candidate displacement `(moveX, moveY)` is accumulated upstream from
the movement flags and `cos`/`sin` of the facing angle; the collision
logic itself uses only addition, `Math.floor` and cell lookups, so it
is embedded over `ℚ` parametrised by the displacement. -/

/-- Lines 1128-1137: accept the x-move only if the destination cell at
the current row is empty, then accept the y-move only if the
destination cell at the (possibly updated) column is empty. -/
def movePlayer (px py moveX moveY : ℚ) : ℚ × ℚ :=
  let newX := px + moveX
  let newY := py + moveY
  let px2 := if isOpen ⌊newX⌋ ⌊py⌋ then newX else px
  let py2 := if isOpen ⌊px2⌋ ⌊newY⌋ then newY else py
  (px2, py2)

/-! ## Weapons, enemies and combat state (src/game.js lines 245-510, 1140-1198)

Positions and angles are embedded over `ℝ` because the combat code uses
`Math.sqrt` and `Math.atan2`; health, timers and damage use only exact
arithmetic and are embedded over `ℚ`; ammunition is `ℕ` with an
unbounded reserve modelled as `(⊤ : ℕ∞)` (the source stores
`Infinity`). -/

/-- `TARGET_KILLS = 100` (line 36). -/
def TARGET_KILLS : ℕ := 100

/-- `ACTIVE_ENEMY_COUNT = 5` (line 39). -/
def ACTIVE_ENEMY_COUNT : ℕ := 5

/-- One entry of the `weapons` registry (lines 424-444). -/
structure Weapon where
  name : String
  ammoCapacity : ℕ
  magazine : ℕ
  totalAmmo : ℕ∞
  reloadTime : ℕ
  damage : ℚ

/-- The initial `shotgun` registry entry (lines 425-435). -/
def shotgunInit : Weapon :=
  { name := "Rifle", ammoCapacity := 8, magazine := 8, totalAmmo := ⊤,
    reloadTime := 2000, damage := 60 }

/-- The initial `laser` registry entry (lines 436-443). -/
def laserInit : Weapon :=
  { name := "Laser Gun", ammoCapacity := 20, magazine := 20, totalAmmo := ⊤,
    reloadTime := 1500, damage := 40 }

/-- The two registry keys (`shotgun` and `laser`, line 445). -/
inductive WeaponKey where
  | shotgun
  | laser
deriving DecidableEq

/-- Enemy state (constructor of `class Enemy`, lines 489-498). -/
structure Enemy where
  x : ℝ
  y : ℝ
  health : ℚ
  alive : Bool
  dying : Bool
  deathTimer : ℚ
  scale : ℚ

/-- `new Enemy(position)` (lines 490-498): health 60, alive, not dying. -/
def Enemy.spawn (x y : ℝ) : Enemy :=
  { x := x, y := y, health := 60, alive := true, dying := false,
    deathTimer := 0, scale := 1 }

/-- `Enemy.hit(damage)` (lines 499-509) together with its write to the
global `kills` counter: returns the updated enemy and updated kill
count.  Note the guard is only `if (!this.alive) return` — an enemy
whose `dying` flag is set but whose `alive` flag has not yet been
cleared by the death-timer update re-enters the `health <= 0` branch. -/
def Enemy.hit (e : Enemy) (damage : ℚ) (kills : ℕ) : Enemy × ℕ :=
  if e.alive = false then (e, kills)
  else
    let h := e.health - damage
    if h ≤ 0 then
      ({ e with health := h, dying := true, deathTimer := 3/5, scale := 1 }, kills + 1)
    else
      ({ e with health := h }, kills)

/-- Decoration sprite classes (`decorSprites`, line 167). -/
inductive DecorKind where
  | tree
  | rock
  | bush
deriving DecidableEq

/-- One decoration (`decorations.push({x, y, sprite})`, line 587). -/
structure Decoration where
  x : ℝ
  y : ℝ
  sprite : DecorKind

/-- The module-level mutable session state touched by the combat code:
player pose (lines 215-227), enemy and decoration lists (lines 256-259),
the weapon registry (lines 424-445), selection, reload flag, game-over
flag, kill counter and the visual timers written by `shootWeapon`. -/
structure GameState where
  playerX : ℝ
  playerY : ℝ
  playerAngle : ℝ
  enemies : List Enemy
  decorations : List Decoration
  shotgun : Weapon
  laser : Weapon
  selectedWeapon : WeaponKey
  reloading : Bool
  gameOver : Bool
  kills : ℕ
  muzzleTimer : ℚ
  bulletTimer : ℚ

/-- `weapons[selectedWeapon]` (line 1142, 1180). -/
def GameState.selWeapon (s : GameState) : Weapon :=
  match s.selectedWeapon with
  | .shotgun => s.shotgun
  | .laser => s.laser

/-- Write back the selected weapon (the source mutates the registry
object in place). -/
def GameState.setSelWeapon (s : GameState) (w : Weapon) : GameState :=
  match s.selectedWeapon with
  | .shotgun => { s with shotgun := w }
  | .laser => { s with laser := w }

/-- The synchronous part of `reloadWeapon` (lines 1178-1186): a no-op
while a reload is in progress, or when the magazine is full, or when the
reserve is empty; otherwise it only sets the `reloading` flag (the
refill is deferred to the timer callback). -/
def reloadWeapon (s : GameState) : GameState :=
  if s.reloading then s
  else if s.selWeapon.magazine ≥ s.selWeapon.ammoCapacity ∨ s.selWeapon.totalAmmo ≤ 0 then s
  else { s with reloading := true }

/-- The deferred `setTimeout` callback of `reloadWeapon`
(lines 1187-1197), parametrised by the weapon key captured when the
reload was requested: `load = min(capacity - magazine, totalAmmo)` is
moved from the reserve into the magazine and the `reloading` flag is
cleared. -/
def reloadFinish (k : WeaponKey) (s : GameState) : GameState :=
  let w := match k with | .shotgun => s.shotgun | .laser => s.laser
  let needed : ℕ := w.ammoCapacity - w.magazine
  let load : ℕ∞ := min (needed : ℕ∞) w.totalAmmo
  let w2 := { w with magazine := w.magazine + load.toNat, totalAmmo := w.totalAmmo - load }
  match k with
  | .shotgun => { s with shotgun := w2, reloading := false }
  | .laser => { s with laser := w2, reloading := false }

/-! ## Hit-scan target selection and firing (src/game.js lines 1140-1175) -/

/-- `Math.atan2(y, x)` as the principal argument of the complex number
`x + y*i`. -/
noncomputable def atan2 (y x : ℝ) : ℝ := Complex.arg ⟨x, y⟩

/-- The angle-normalisation `while` loops
(`while (ang < -PI) ang += 2*PI; while (ang > PI) ang -= 2*PI`,
lines 1159-1160): the input is a difference of two angles in
`(-π, π]`, hence in `(-2π, 2π)`, so a single correction step is the
fixed point of the loop. -/
noncomputable def normAngle (a : ℝ) : ℝ :=
  if a < -Real.pi then a + 2 * Real.pi
  else if a > Real.pi then a - 2 * Real.pi
  else a

/-- `threshold = FOV * 0.05` (line 1151). -/
noncomputable def aimThreshold : ℝ := FOV * 0.05

/-- One step of the target-search loop (lines 1152-1165): skip enemies
with `alive === false`; otherwise replace the current best when the
normalised bearing is inside the threshold and the distance beats the
current minimum (initially `Infinity`, modelled by the `none`
accumulator). -/
noncomputable def shootTargetFold (px py pangle : ℝ)
    (acc : Option (ℕ × Enemy × ℝ)) (ie : ℕ × Enemy) : Option (ℕ × Enemy × ℝ) :=
  let e := ie.2
  if e.alive = false then acc
  else
    let dx := e.x - px
    let dy := e.y - py
    let dist := Real.sqrt (dx * dx + dy * dy)
    let ang := normAngle (atan2 dy dx - pangle)
    match acc with
    | none => if |ang| < aimThreshold then some (ie.1, e, dist) else none
    | some (j, f, d) =>
        if |ang| < aimThreshold ∧ dist < d then some (ie.1, e, dist) else some (j, f, d)

/-- The full target search of `shootWeapon` (lines 1148-1165): the
nearest alive enemy within the angular threshold, with its index and
distance, if any. -/
noncomputable def shootTarget (px py pangle : ℝ) (enemies : List Enemy) :
    Option (ℕ × Enemy × ℝ) :=
  enemies.enum.foldl (shootTargetFold px py pangle) none

/-- `shootWeapon()` (lines 1140-1175): early return when the game is
over or a reload is in progress; with an empty magazine, auto-trigger a
reload when reserve remains and return without firing; otherwise
decrement the magazine, apply the weapon damage to the selected target
(if any), set the muzzle and tracer timers, and auto-reload when the
magazine has just run dry.  (`updateUI` only writes to the HUD.) -/
noncomputable def shootWeapon (s : GameState) : GameState :=
  if s.gameOver || s.reloading then s
  else if s.selWeapon.magazine = 0 then
    (if 0 < s.selWeapon.totalAmmo then reloadWeapon s else s)
  else
    let w := s.selWeapon
    let s1 := s.setSelWeapon { w with magazine := w.magazine - 1 }
    let s2 :=
      match shootTarget s1.playerX s1.playerY s1.playerAngle s1.enemies with
      | none => s1
      | some (i, e, _) =>
        let hk := Enemy.hit e w.damage s1.kills
        { s1 with enemies := s1.enemies.set i hk.1, kills := hk.2 }
    let s3 := { s2 with muzzleTimer := 3/20, bulletTimer := 1/10 }
    if s3.selWeapon.magazine = 0 ∧ 0 < s3.selWeapon.totalAmmo then reloadWeapon s3 else s3

/-- The win check at the end of a playing frame (lines 1485-1505):
`if (kills >= TARGET_KILLS) gameOver = true` (plus overlay writes). -/
def winCheck (s : GameState) : GameState :=
  if s.kills ≥ TARGET_KILLS then { s with gameOver := true } else s

/-! ### Shared concrete ray evaluations -/

/-- The central ray of the initial pose: player `(5/2, 5/2)`, direction
`(1, 0)` (angle 0): three x-steps reach the wall cell `(5, 2)` and the
recorded depth is `5/2`. -/
lemma castRayDepth_central_eval : castRayDepth (5/2) (5/2) 1 0 = 5/2 := by
  have hi : rayInit (5/2) (5/2) 1 0 = (⟨1, 10^30, 1, 1⟩, ⟨1/2, 10^30/2, 2, 2⟩) := by
    norm_num [rayInit, deltaDist, axisInit, abs_of_pos]
  have e1 : ddaRun ⟨1, 10^30, 1, 1⟩ 34 ⟨1/2, 10^30/2, 2, 2⟩
      = ddaRun ⟨1, 10^30, 1, 1⟩ 33 ⟨3/2, 10^30/2, 3, 2⟩ :=
    ddaRun_step _ 33 _ _ 0 (by norm_num [ddaStep]) (by decide) (by decide)
  have e2 : ddaRun ⟨1, 10^30, 1, 1⟩ 33 ⟨3/2, 10^30/2, 3, 2⟩
      = ddaRun ⟨1, 10^30, 1, 1⟩ 32 ⟨5/2, 10^30/2, 4, 2⟩ :=
    ddaRun_step _ 32 _ _ 0 (by norm_num [ddaStep]) (by decide) (by decide)
  have e3 : ddaRun ⟨1, 10^30, 1, 1⟩ 32 ⟨5/2, 10^30/2, 4, 2⟩
      = some (⟨7/2, 10^30/2, 5, 2⟩, 0) :=
    ddaRun_hit _ 31 _ _ 0 (by norm_num [ddaStep]) (by decide)
  rw [castRayDepth_eval (5/2) (5/2) 1 0 _ _ _ _ hi (e1.trans (e2.trans e3))]
  norm_num

/-- The run of the off-axis unit ray `(4/5, 3/5)` from `(5/2, 5/2)`:
five steps reach the wall cell `(5, 4)` with an x-side hit. -/
lemma castRayRun_offaxis_eval :
    castRayRun (5/2) (5/2) (4/5) (3/5) = some (⟨35/8, 25/6, 5, 4⟩, 0) := by
  have hi : rayInit (5/2) (5/2) (4/5) (3/5) = (⟨5/4, 5/3, 1, 1⟩, ⟨5/8, 5/6, 2, 2⟩) := by
    norm_num [rayInit, deltaDist, axisInit, abs_of_pos]
  have e1 : ddaRun ⟨5/4, 5/3, 1, 1⟩ 34 ⟨5/8, 5/6, 2, 2⟩
      = ddaRun ⟨5/4, 5/3, 1, 1⟩ 33 ⟨15/8, 5/6, 3, 2⟩ :=
    ddaRun_step _ 33 _ _ 0 (by norm_num [ddaStep]) (by decide) (by decide)
  have e2 : ddaRun ⟨5/4, 5/3, 1, 1⟩ 33 ⟨15/8, 5/6, 3, 2⟩
      = ddaRun ⟨5/4, 5/3, 1, 1⟩ 32 ⟨15/8, 5/2, 3, 3⟩ :=
    ddaRun_step _ 32 _ _ 1 (by norm_num [ddaStep]) (by decide) (by decide)
  have e3 : ddaRun ⟨5/4, 5/3, 1, 1⟩ 32 ⟨15/8, 5/2, 3, 3⟩
      = ddaRun ⟨5/4, 5/3, 1, 1⟩ 31 ⟨25/8, 5/2, 4, 3⟩ :=
    ddaRun_step _ 31 _ _ 0 (by norm_num [ddaStep]) (by decide) (by decide)
  have e4 : ddaRun ⟨5/4, 5/3, 1, 1⟩ 31 ⟨25/8, 5/2, 4, 3⟩
      = ddaRun ⟨5/4, 5/3, 1, 1⟩ 30 ⟨25/8, 25/6, 4, 4⟩ :=
    ddaRun_step _ 30 _ _ 1 (by norm_num [ddaStep]) (by decide) (by decide)
  have e5 : ddaRun ⟨5/4, 5/3, 1, 1⟩ 30 ⟨25/8, 25/6, 4, 4⟩
      = some (⟨35/8, 25/6, 5, 4⟩, 0) :=
    ddaRun_hit _ 29 _ _ 0 (by norm_num [ddaStep]) (by decide)
  rw [castRayRun_eval (5/2) (5/2) (4/5) (3/5) _ _ hi]
  exact e1.trans (e2.trans (e3.trans (e4.trans e5)))

/-- Recorded depth of the off-axis ray `(4/5, 3/5)`: `25/8`. -/
lemma castRayDepth_offaxis_eval :
    castRayDepth (5/2) (5/2) (4/5) (3/5) = 25/8 := by
  unfold castRayDepth
  rw [castRayRun_offaxis_eval]
  have hd : (rayInit (5/2) (5/2) (4/5) (3/5)).1.deltaDistX = 5/4 := by
    norm_num [rayInit, deltaDist, axisInit, abs_of_pos]
  rw [hd]
  norm_num

/-! ## Claim theorems -/

/-- C4: wall anchoring.  The patch comment in the source states the wall
slice bottom must sit on the horizon; the patched draw (lines 690-705)
does so, but the surviving original draw call (lines 717-748), which
paints last, gives a slice of height `wallHeight` from `startY`, whose
bottom row is `wallHeight` (below the horizon) whenever the slice is
clipped (`wallHeight > horizon`).  Evaluated at horizon 200 with a
clipped slice of height 300 and an unclipped slice of height 100: the
unclipped slice is anchored at the horizon (and is not centred about
it), the clipped slice ends 100 rows below the horizon. -/
theorem c4_wall_slice_bottom_eval :
    patchDrawBottom 200 300 = 200 ∧
    mainDrawBottom 200 300 = 300 ∧
    mainDrawBottom 200 100 = 200 ∧
    (300 : ℚ) ≠ 200 ∧ (200 : ℚ) ≠ 200 + 100 / 2 := by
  refine ⟨?_, ?_, ?_, by norm_num, by norm_num⟩ <;>
    norm_num [patchDrawBottom, mainDrawBottom, wallStartY, wallEndY]

/-- C2 counterexample: the floor-caster invocation of the frame does not
consume the depth buffer of the wall caster.  `gameLoop` passes `[]`
(line 1448); the central ray of the wall caster (column 240, direction
`(1, 0)` for the initial pose `(5/2, 5/2)` facing angle 0) records
depth `5/2`, and a floor pixel on that column at world point
`(11/2, 5/2)` — squared distance 9 > (5/2)² — is nevertheless left
visible by the occlusion test of the floor caster. -/
theorem c2_floor_depth_not_consumed :
    gameLoopFloorDepthArg = [] ∧
    castRayDepth (5/2) (5/2) 1 0 = 5/2 ∧
    floorDistSq (11/2) (5/2) (5/2) (5/2) = 9 ∧
    (9 : ℚ) > 5/2 * (5/2) ∧
    floorPixelVisible (zBufSq gameLoopFloorDepthArg) 240 9 = true := by
  exact ⟨rfl, castRayDepth_central_eval, by norm_num [floorDistSq], by norm_num, by decide⟩

/-- C2 amended: `drawFloorPerspective` itself implements the occlusion
rule — given a non-empty depth buffer it suppresses exactly the floor
pixels whose squared world distance exceeds the squared buffer entry of
their column — but the per-frame invocation passes an empty buffer, so
in every rendered frame no floor pixel is suppressed (wall-over-floor
occlusion is instead obtained by painting walls after the floor). -/
theorem c2_floor_occlusion_amended :
    (∀ (col : ℤ) (distSq : ℚ),
        floorPixelVisible (zBufSq gameLoopFloorDepthArg) col distSq = true) ∧
    (∀ (zb : List ℚ) (col : ℤ) (distSq : ℚ),
        0 ≤ col → col < ((zBufSq zb).length : ℤ) →
        distSq > (zBufSq zb).getD col.toNat 0 →
        floorPixelVisible (zBufSq zb) col distSq = false) := by
  constructor
  · intro col distSq
    rw [floorPixelVisible, if_neg]
    simp only [gameLoopFloorDepthArg, zBufSq, List.map_nil, List.length_nil]
    omega
  · intro zb col distSq h1 h2 h3
    rw [floorPixelVisible, if_pos ⟨h1, h2⟩, if_pos h3]

/-- Witness for the amended C2 statement: the central column with the
empty per-frame buffer stays visible; with the depth buffer `[5/2]`
actually supplied, a pixel at squared distance 9 on column 0 is
suppressed. -/
theorem c2_floor_occlusion_amended_witness :
    floorPixelVisible (zBufSq gameLoopFloorDepthArg) 240 9 = true ∧
    floorPixelVisible (zBufSq [5/2]) 0 9 = false := by
  refine ⟨c2_floor_occlusion_amended.1 240 9,
    c2_floor_occlusion_amended.2 [5/2] 0 9 (by norm_num) ?_ ?_⟩ <;>
    norm_num [zBufSq]

/-- C9 counterexample: the ray fan is not symmetric about the facing
angle.  The first ray sits at offset `-FOV/2`, but the last ray
(`i = numRays - 1 = 479`) sits at `FOV/2 - FOV/480`, not `FOV/2`. -/
theorem c9_ray_fan_asymmetric :
    rayAngle 0 0 = -(FOV / 2) ∧ rayAngle 0 479 ≠ FOV / 2 := by
  constructor
  · unfold rayAngle numRays
    push_cast
    ring
  · unfold rayAngle FOV numRays
    intro h
    have hpi := Real.pi_pos
    push_cast at h
    nlinarith [h]

/-- C9 amended: for every `i < numRays` the angular offsets of rays `i`
and `numRays - 1 - i` sum to `-FOV/numRays` (so the fan is symmetric
about `angle - FOV/(2*numRays)`, not about the facing angle), and the
extreme rays sit at `angle - FOV/2` and `angle + FOV/2 - FOV/numRays`. -/
theorem c9_ray_fan_span (a : ℝ) (i : ℕ) (hi : i < numRays) :
    (rayAngle a i - a) + (rayAngle a (numRays - 1 - i) - a)
      = -(FOV / numRays) ∧
    rayAngle a 0 = a - FOV / 2 ∧
    rayAngle a (numRays - 1) = a + FOV / 2 - FOV / numRays := by
  have hle : i ≤ 479 := by
    have h2 := hi
    simp only [numRays] at h2
    omega
  refine ⟨?_, ?_, ?_⟩
  · unfold rayAngle numRays
    have h3 : (480 - 1 - i : ℕ) = 479 - i := by omega
    rw [h3]
    push_cast [Nat.cast_sub hle]
    ring
  · unfold rayAngle numRays
    push_cast
    ring
  · unfold rayAngle numRays
    have h3 : (480 - 1 : ℕ) = 479 := by omega
    rw [h3]
    push_cast
    ring

/-- Witness for the amended C9 statement at `a = 0`, `i = 0`. -/
theorem c9_ray_fan_span_witness :
    (rayAngle 0 0 - 0) + (rayAngle 0 (numRays - 1 - 0) - 0) = -(FOV / numRays) ∧
    rayAngle 0 0 = 0 - FOV / 2 ∧
    rayAngle 0 (numRays - 1) = 0 + FOV / 2 - FOV / numRays :=
  c9_ray_fan_span 0 0 (by norm_num [numRays])

/-- C5: axis-separated collision.  From an empty current cell, the
x-displacement is applied exactly when the destination cell at the
current row is empty and the y-displacement exactly when the
destination cell at the updated column is empty; in every case the
cell of the resulting position is again empty (never inside a wall), so a
diagonal move blocked on one axis still advances along the open axis. -/
theorem c5_axis_separated_collision (px py moveX moveY : ℚ)
    (hcur : isOpen ⌊px⌋ ⌊py⌋ = true) :
    isOpen ⌊(movePlayer px py moveX moveY).1⌋ ⌊(movePlayer px py moveX moveY).2⌋ = true ∧
    (isOpen ⌊px + moveX⌋ ⌊py⌋ = true → (movePlayer px py moveX moveY).1 = px + moveX) ∧
    (isOpen ⌊px + moveX⌋ ⌊py⌋ = false → (movePlayer px py moveX moveY).1 = px) ∧
    (isOpen ⌊(movePlayer px py moveX moveY).1⌋ ⌊py + moveY⌋ = true →
      (movePlayer px py moveX moveY).2 = py + moveY) ∧
    (isOpen ⌊(movePlayer px py moveX moveY).1⌋ ⌊py + moveY⌋ = false →
      (movePlayer px py moveX moveY).2 = py) := by
  unfold movePlayer
  by_cases hx : isOpen ⌊px + moveX⌋ ⌊py⌋ = true
  · by_cases hy : isOpen ⌊px + moveX⌋ ⌊py + moveY⌋ = true
    · simp [hx, hy]
    · rw [Bool.not_eq_true] at hy
      simp [hx, hy, hcur]
  · rw [Bool.not_eq_true] at hx
    by_cases hy : isOpen ⌊px⌋ ⌊py + moveY⌋ = true
    · simp [hx, hy]
    · rw [Bool.not_eq_true] at hy
      simp [hx, hy, hcur]

/-- Witness for C5: the player at `(3/2, 5/2)` (empty cell `(1, 2)`)
moving diagonally by `(-1, 3/10)` into the west border wall slides: the
x-move into cell `(0, 2)` is rejected, the y-move into cell `(1, 2)`
is accepted. -/
theorem c5_collision_witness :
    (movePlayer (3/2) (5/2) (-1) (3/10)).1 = 3/2 ∧
    (movePlayer (3/2) (5/2) (-1) (3/10)).2 = 5/2 + 3/10 := by
  have f1 : (⌊(3/2 : ℚ)⌋ : ℤ) = 1 := by norm_num
  have f2 : (⌊(5/2 : ℚ)⌋ : ℤ) = 2 := by norm_num
  have f3 : (⌊(3/2 : ℚ) + (-1)⌋ : ℤ) = 0 := by norm_num
  have f4 : (⌊(5/2 : ℚ) + 3/10⌋ : ℤ) = 2 := by norm_num
  have h := c5_axis_separated_collision (3/2) (5/2) (-1) (3/10)
    (by rw [f1, f2]; decide)
  obtain ⟨-, -, hx, hy, -⟩ := h
  have hx2 : (movePlayer (3/2) (5/2) (-1) (3/10)).1 = 3/2 := by
    apply hx
    rw [f3, f2]
    decide
  refine ⟨hx2, ?_⟩
  apply hy
  rw [hx2, f1, f4]
  decide

/-- C8: the DDA loop terminates for every ray started strictly inside
the map, producing a hit result (wall entered or bounds left), so every
one of the `numRays` columns receives a depth value. -/
theorem c8_ray_march_terminates (px py dirX dirY : ℚ)
    (h1 : 0 ≤ ⌊px⌋) (h2 : ⌊px⌋ < mapWidth) (h3 : 0 ≤ ⌊py⌋) (h4 : ⌊py⌋ < mapHeight) :
    (castRayRun px py dirX dirY).isSome = true :=
  castRayRun_isSome px py dirX dirY h1 h2 h3 h4

/-- Witness for C8 at the initial pose and the central ray. -/
theorem c8_ray_march_terminates_witness :
    (castRayRun (5/2) (5/2) 1 0).isSome = true :=
  c8_ray_march_terminates (5/2) (5/2) 1 0 (by norm_num) (by norm_num [mapWidth])
    (by norm_num) (by norm_num [mapHeight])

/-- C3: the recorded depth is the Euclidean distance along the ray, not
the perpendicular distance.  For the player at `(5/2, 5/2)` facing
angle 0, the unit ray `(4/5, 3/5)` (bearing `arccos(4/5) ≈ 36.87° <
FOV/2 = 50°`) marches to the wall cell `(5, 4)`, crossing its `x = 5`
face at the point `(5, 35/8)` whose Euclidean distance from the player
is `25/8`; the recorded depth is that `25/8`, whereas the value
`Euclidean × cos(rayAngle - player.angle) = 25/8 × 4/5 = 5/2` differs.
The central ray (where `cos = 1`) records `5/2` as the scenario of the claim
expects. -/
theorem c3_depth_euclidean_not_perpendicular :
    castRayDepth (5/2) (5/2) (4/5) (3/5) = 25/8 ∧
    (4/5 : ℚ) * (4/5) + 3/5 * (3/5) = 1 ∧
    castRayRun (5/2) (5/2) (4/5) (3/5) = some (⟨35/8, 25/6, 5, 4⟩, 0) ∧
    (5/2 : ℚ) + 25/8 * (4/5) = 5 ∧
    (5/2 : ℚ) + 25/8 * (3/5) = 35/8 ∧
    ((5 : ℚ) - 5/2) * (5 - 5/2) + (35/8 - 5/2) * (35/8 - 5/2) = 25/8 * (25/8) ∧
    (25/8 : ℚ) * (4/5) = 5/2 ∧
    (25/8 : ℚ) ≠ 5/2 ∧
    castRayDepth (5/2) (5/2) 1 0 = 5/2 :=
  ⟨castRayDepth_offaxis_eval, by norm_num, castRayRun_offaxis_eval, by norm_num,
    by norm_num, by norm_num, by norm_num, by norm_num, castRayDepth_central_eval⟩

/-! ### Reload state machine lemmas -/

lemma reloadWeapon_cases (s : GameState) :
    reloadWeapon s = s ∨ reloadWeapon s = { s with reloading := true } := by
  unfold reloadWeapon
  split
  · exact Or.inl rfl
  · split
    · exact Or.inl rfl
    · exact Or.inr rfl

lemma reloadFinish_selWeapon (s : GameState) :
    (reloadFinish s.selectedWeapon s).selWeapon =
      { s.selWeapon with
        magazine := s.selWeapon.magazine +
          (min ((s.selWeapon.ammoCapacity - s.selWeapon.magazine : ℕ) : ℕ∞)
            s.selWeapon.totalAmmo).toNat,
        totalAmmo := s.selWeapon.totalAmmo -
          min ((s.selWeapon.ammoCapacity - s.selWeapon.magazine : ℕ) : ℕ∞)
            s.selWeapon.totalAmmo } := by
  cases hk : s.selectedWeapon <;>
    simp [reloadFinish, GameState.selWeapon, hk]

lemma enat_coe_min (a b : ℕ) : ((min a b : ℕ) : ℕ∞) = min (a : ℕ∞) (b : ℕ∞) := by
  rcases le_total a b with h2 | h2
  · rw [min_eq_left (ENat.coe_le_coe.mpr h2), min_eq_left h2]
  · rw [min_eq_right (ENat.coe_le_coe.mpr h2), min_eq_right h2]

lemma refill_arith (mag cap : ℕ) (t : ℕ∞) (h : mag ≤ cap) :
    ((mag + (min ((cap - mag : ℕ) : ℕ∞) t).toNat : ℕ) : ℕ∞)
        = min (cap : ℕ∞) ((mag : ℕ∞) + t) ∧
    t = (t - min ((cap - mag : ℕ) : ℕ∞) t)
        + ((min ((cap - mag : ℕ) : ℕ∞) t).toNat : ℕ∞) := by
  induction t using ENat.recTopCoe with
  | top =>
    constructor
    · rw [min_eq_left le_top, ENat.toNat_coe]
      rw [show ((mag : ℕ∞) + ⊤) = ⊤ from add_top _, min_eq_left le_top]
      exact ENat.coe_inj.mpr (by omega)
    · rw [min_eq_left le_top, ENat.top_sub_coe, ENat.toNat_coe, top_add]
  | coe n =>
    have hmin : (min ((cap - mag : ℕ) : ℕ∞) ((n : ℕ) : ℕ∞))
        = ((min (cap - mag) n : ℕ) : ℕ∞) := (enat_coe_min _ _).symm
    constructor
    · rw [hmin, ENat.toNat_coe,
        show ((mag : ℕ∞) + ((n : ℕ) : ℕ∞)) = ((mag + n : ℕ) : ℕ∞) from (ENat.coe_add _ _),
        ← enat_coe_min]
      exact ENat.coe_inj.mpr (by omega)
    · rw [hmin, ENat.toNat_coe, ← ENat.coe_sub, ← ENat.coe_add]
      exact ENat.coe_inj.mpr (by omega)

lemma reloadWeapon_preserves (s : GameState) :
    (reloadWeapon s).shotgun = s.shotgun ∧ (reloadWeapon s).laser = s.laser ∧
    (reloadWeapon s).selectedWeapon = s.selectedWeapon := by
  rcases reloadWeapon_cases s with h | h <;> rw [h] <;> exact ⟨rfl, rfl, rfl⟩

lemma selWeapon_congr {a b : GameState} (h1 : a.shotgun = b.shotgun)
    (h2 : a.laser = b.laser) (h3 : a.selectedWeapon = b.selectedWeapon) :
    a.selWeapon = b.selWeapon := by
  unfold GameState.selWeapon
  rw [h3]
  cases b.selectedWeapon <;> simp [h1, h2]

/-- C6: reload no-op and idempotence.  Requesting a reload while one is
in progress, or with a full magazine, or with an empty reserve, leaves
the state unchanged; requesting twice is the same as requesting once
(the second request returns before scheduling anything); and when the
pending reload completes, the magazine holds exactly
`min(capacity, magazine + reserve)` and the reserve has gone down by
exactly the number of rounds loaded — never applied twice. -/
theorem c6_reload_no_op_idempotent (s : GameState)
    (h : s.selWeapon.magazine ≤ s.selWeapon.ammoCapacity) :
    (s.reloading = true → reloadWeapon s = s) ∧
    (s.selWeapon.magazine ≥ s.selWeapon.ammoCapacity ∨ s.selWeapon.totalAmmo = 0 →
      reloadWeapon s = s) ∧
    reloadWeapon (reloadWeapon s) = reloadWeapon s ∧
    (((reloadFinish s.selectedWeapon (reloadWeapon (reloadWeapon s))).selWeapon.magazine : ℕ)
        : ℕ∞)
      = min ((s.selWeapon.ammoCapacity : ℕ) : ℕ∞)
          (((s.selWeapon.magazine : ℕ) : ℕ∞) + s.selWeapon.totalAmmo) ∧
    s.selWeapon.totalAmmo
      = (reloadFinish s.selectedWeapon (reloadWeapon (reloadWeapon s))).selWeapon.totalAmmo
        + ((((reloadFinish s.selectedWeapon
              (reloadWeapon (reloadWeapon s))).selWeapon.magazine
            - s.selWeapon.magazine : ℕ)) : ℕ∞) := by
  have p1 : ∀ u : GameState, u.reloading = true → reloadWeapon u = u := by
    intro u hu
    unfold reloadWeapon
    rw [if_pos hu]
  have p3 : reloadWeapon (reloadWeapon s) = reloadWeapon s := by
    rcases reloadWeapon_cases s with h1 | h1
    · rw [h1]
      exact h1
    · rw [h1]
      exact p1 _ rfl
  -- the double request does not change the weapon registry or selection
  have hpre1 := reloadWeapon_preserves s
  have hpre2 := reloadWeapon_preserves (reloadWeapon s)
  have hsel : (reloadWeapon (reloadWeapon s)).selectedWeapon = s.selectedWeapon :=
    hpre2.2.2.trans hpre1.2.2
  have hw : (reloadWeapon (reloadWeapon s)).selWeapon = s.selWeapon :=
    selWeapon_congr (hpre2.1.trans hpre1.1) (hpre2.2.1.trans hpre1.2.1) hsel
  have hfin := reloadFinish_selWeapon (reloadWeapon (reloadWeapon s))
  rw [hsel, hw] at hfin
  have har := refill_arith s.selWeapon.magazine s.selWeapon.ammoCapacity
    s.selWeapon.totalAmmo h
  refine ⟨p1 s, ?_, p3, ?_, ?_⟩
  · intro h2
    unfold reloadWeapon
    split
    · rfl
    · rw [if_pos (h2.imp id le_of_eq)]
  · rw [hfin]
    exact har.1
  · rw [hfin]
    have hmag : ({ s.selWeapon with
        magazine := s.selWeapon.magazine +
          (min ((s.selWeapon.ammoCapacity - s.selWeapon.magazine : ℕ) : ℕ∞)
            s.selWeapon.totalAmmo).toNat,
        totalAmmo := s.selWeapon.totalAmmo -
          min ((s.selWeapon.ammoCapacity - s.selWeapon.magazine : ℕ) : ℕ∞)
            s.selWeapon.totalAmmo } : Weapon).magazine
      = s.selWeapon.magazine +
          (min ((s.selWeapon.ammoCapacity - s.selWeapon.magazine : ℕ) : ℕ∞)
            s.selWeapon.totalAmmo).toNat := rfl
    rw [hmag]
    have hsub : s.selWeapon.magazine +
          (min ((s.selWeapon.ammoCapacity - s.selWeapon.magazine : ℕ) : ℕ∞)
            s.selWeapon.totalAmmo).toNat - s.selWeapon.magazine
        = (min ((s.selWeapon.ammoCapacity - s.selWeapon.magazine : ℕ) : ℕ∞)
            s.selWeapon.totalAmmo).toNat := by omega
    rw [hsub]
    exact har.2

/-- Concrete state for the C6 witness: rifle selected with 3 of 8
rounds in the magazine and an unbounded reserve, no reload pending. -/
noncomputable def c6State : GameState :=
  { playerX := 5/2, playerY := 5/2, playerAngle := 0, enemies := [], decorations := [],
    shotgun := { shotgunInit with magazine := 3 }, laser := laserInit,
    selectedWeapon := .shotgun, reloading := false, gameOver := false, kills := 0,
    muzzleTimer := 0, bulletTimer := 0 }

/-- Witness for C6 at `c6State`. -/
theorem c6_reload_witness :
    (c6State.reloading = true → reloadWeapon c6State = c6State) ∧
    (c6State.selWeapon.magazine ≥ c6State.selWeapon.ammoCapacity ∨
      c6State.selWeapon.totalAmmo = 0 → reloadWeapon c6State = c6State) ∧
    reloadWeapon (reloadWeapon c6State) = reloadWeapon c6State ∧
    (((reloadFinish c6State.selectedWeapon
        (reloadWeapon (reloadWeapon c6State))).selWeapon.magazine : ℕ) : ℕ∞)
      = min ((c6State.selWeapon.ammoCapacity : ℕ) : ℕ∞)
          (((c6State.selWeapon.magazine : ℕ) : ℕ∞) + c6State.selWeapon.totalAmmo) ∧
    c6State.selWeapon.totalAmmo
      = (reloadFinish c6State.selectedWeapon
          (reloadWeapon (reloadWeapon c6State))).selWeapon.totalAmmo
        + ((((reloadFinish c6State.selectedWeapon
              (reloadWeapon (reloadWeapon c6State))).selWeapon.magazine
            - c6State.selWeapon.magazine : ℕ)) : ℕ∞) :=
  c6_reload_no_op_idempotent c6State (by decide)

/-- C7: firing with an empty magazine and available reserve (game not
over, not reloading) only starts a reload: the resulting state differs
from the input solely in the `reloading` flag — in particular no enemy
is touched and the magazine stays at 0. -/
theorem c7_empty_magazine_fire (s : GameState)
    (h1 : s.gameOver = false) (h2 : s.reloading = false)
    (h3 : s.selWeapon.magazine = 0) (h4 : 0 < s.selWeapon.totalAmmo)
    (h5 : 0 < s.selWeapon.ammoCapacity) :
    shootWeapon s = { s with reloading := true } ∧
    (shootWeapon s).enemies = s.enemies ∧
    (shootWeapon s).selWeapon.magazine = 0 ∧
    (shootWeapon s).kills = s.kills := by
  have hcond : ¬(s.selWeapon.magazine ≥ s.selWeapon.ammoCapacity ∨
      s.selWeapon.totalAmmo ≤ 0) := by
    push_neg
    exact ⟨by omega, h4⟩
  have hmain : shootWeapon s = { s with reloading := true } := by
    unfold shootWeapon
    rw [h1, h2]
    simp only [Bool.or_self, Bool.false_eq_true, if_false]
    rw [if_pos h3, if_pos h4]
    unfold reloadWeapon
    rw [h2]
    simp only [Bool.false_eq_true, if_false]
    rw [if_neg hcond, h1]
  refine ⟨hmain, ?_, ?_, ?_⟩
  · rw [hmain]
  · rw [hmain]
    have hsel : ({ s with reloading := true } : GameState).selWeapon = s.selWeapon :=
      selWeapon_congr rfl rfl rfl
    rw [hsel]
    exact h3
  · rw [hmain]

/-- Concrete state for the C7 witness: rifle selected with an empty
magazine and unbounded reserve. -/
noncomputable def c7State : GameState :=
  { playerX := 5/2, playerY := 5/2, playerAngle := 0, enemies := [], decorations := [],
    shotgun := { shotgunInit with magazine := 0 }, laser := laserInit,
    selectedWeapon := .shotgun, reloading := false, gameOver := false, kills := 0,
    muzzleTimer := 0, bulletTimer := 0 }

/-- Witness for C7 at `c7State`. -/
theorem c7_empty_magazine_fire_witness :
    shootWeapon c7State = { c7State with reloading := true } ∧
    (shootWeapon c7State).enemies = c7State.enemies ∧
    (shootWeapon c7State).selWeapon.magazine = 0 ∧
    (shootWeapon c7State).kills = c7State.kills :=
  c7_empty_magazine_fire c7State rfl rfl rfl (by decide) (by decide)

/-! ### Target-selection lemmas -/

lemma shootTargetFold_spec (px py pangle : ℝ) :
    ∀ (l : List (ℕ × Enemy)) (acc : Option (ℕ × Enemy × ℝ)) (i : ℕ) (e : Enemy) (d : ℝ),
      l.foldl (shootTargetFold px py pangle) acc = some (i, e, d) →
      acc = some (i, e, d) ∨
        ((i, e) ∈ l ∧ e.alive = true ∧
          |normAngle (atan2 (e.y - py) (e.x - px) - pangle)| < aimThreshold ∧
          d = Real.sqrt ((e.x - px) * (e.x - px) + (e.y - py) * (e.y - py))) := by
  intro l
  induction l with
  | nil =>
    intro acc i e d h
    exact Or.inl h
  | cons hd tl ih =>
    intro acc i e d h
    rw [List.foldl_cons] at h
    rcases ih _ i e d h with h2 | h2
    · cases acc with
      | none =>
        simp only [shootTargetFold] at h2
        by_cases ha : hd.2.alive = false
        · rw [if_pos ha] at h2
          exact Or.inl h2
        · rw [if_neg ha] at h2
          rw [Bool.not_eq_false] at ha
          by_cases hc : |normAngle (atan2 (hd.2.y - py) (hd.2.x - px) - pangle)|
              < aimThreshold
          · rw [if_pos hc] at h2
            rw [Option.some.injEq, Prod.mk.injEq] at h2
            obtain ⟨h2a, h2b⟩ := h2
            rw [Prod.mk.injEq] at h2b
            subst h2a
            rw [← h2b.1]
            exact Or.inr ⟨List.mem_cons_self hd tl, ha, hc, h2b.2.symm⟩
          · rw [if_neg hc] at h2
            exact absurd h2 (by simp)
      | some t =>
        obtain ⟨j, f, dc⟩ := t
        simp only [shootTargetFold] at h2
        by_cases ha : hd.2.alive = false
        · rw [if_pos ha] at h2
          exact Or.inl h2
        · rw [if_neg ha] at h2
          rw [Bool.not_eq_false] at ha
          by_cases hc : |normAngle (atan2 (hd.2.y - py) (hd.2.x - px) - pangle)|
                < aimThreshold ∧
              Real.sqrt ((hd.2.x - px) * (hd.2.x - px) + (hd.2.y - py) * (hd.2.y - py)) < dc
          · rw [if_pos hc] at h2
            rw [Option.some.injEq, Prod.mk.injEq] at h2
            obtain ⟨h2a, h2b⟩ := h2
            rw [Prod.mk.injEq] at h2b
            subst h2a
            rw [← h2b.1]
            exact Or.inr ⟨by exact List.mem_cons_self hd tl, ha, hc.1, h2b.2.symm⟩
          · rw [if_neg hc] at h2
            exact Or.inl h2
    · exact Or.inr ⟨List.mem_cons_of_mem _ h2.1, h2.2⟩

/-- A step of the target fold on a `some` accumulator stays `some` and
never increases the stored minimum distance (it only replaces the best
candidate when `dist < minDist`, line 1161). -/
lemma shootTargetFold_some_le (px py pangle : ℝ) (k : ℕ) (u : Enemy) (dc : ℝ)
    (hd : ℕ × Enemy) :
    ∃ k2 u2 d2, shootTargetFold px py pangle (some (k, u, dc)) hd = some (k2, u2, d2) ∧
      d2 ≤ dc := by
  simp only [shootTargetFold]
  by_cases ha : hd.2.alive = false
  · rw [if_pos ha]
    exact ⟨k, u, dc, rfl, le_refl dc⟩
  · rw [if_neg ha]
    by_cases hc : |normAngle (atan2 (hd.2.y - py) (hd.2.x - px) - pangle)|
          < aimThreshold ∧
        Real.sqrt ((hd.2.x - px) * (hd.2.x - px) + (hd.2.y - py) * (hd.2.y - py)) < dc
    · rw [if_pos hc]
      exact ⟨hd.1, hd.2, _, rfl, le_of_lt hc.2⟩
    · rw [if_neg hc]
      exact ⟨k, u, dc, rfl, le_refl dc⟩

/-- The stored minimum distance is non-increasing along the fold. -/
lemma shootTargetFold_mono (px py pangle : ℝ) :
    ∀ (l : List (ℕ × Enemy)) (k : ℕ) (u : Enemy) (dc : ℝ) (i : ℕ) (e : Enemy) (d : ℝ),
      l.foldl (shootTargetFold px py pangle) (some (k, u, dc)) = some (i, e, d) →
      d ≤ dc := by
  intro l
  induction l with
  | nil =>
    intro k u dc i e d h
    rw [List.foldl_nil, Option.some.injEq, Prod.mk.injEq] at h
    rw [Prod.mk.injEq] at h
    exact le_of_eq h.2.2.symm
  | cons hd tl ih =>
    intro k u dc i e d h
    rw [List.foldl_cons] at h
    obtain ⟨k2, u2, d2, heq, hle⟩ := shootTargetFold_some_le px py pangle k u dc hd
    rw [heq] at h
    exact le_trans (ih k2 u2 d2 i e d h) hle

/-- Processing an alive in-threshold element leaves the accumulator
`some`, with stored distance at most the distance of that element
(when the accumulator was `none`, the element is selected outright —
the `minDist = Infinity` initial state). -/
lemma shootTargetFold_head_le (px py pangle : ℝ) (acc : Option (ℕ × Enemy × ℝ))
    (hd : ℕ × Enemy) (ha : hd.2.alive = true)
    (hth : |normAngle (atan2 (hd.2.y - py) (hd.2.x - px) - pangle)| < aimThreshold) :
    ∃ k2 u2 d2, shootTargetFold px py pangle acc hd = some (k2, u2, d2) ∧
      d2 ≤ Real.sqrt ((hd.2.x - px) * (hd.2.x - px) + (hd.2.y - py) * (hd.2.y - py)) := by
  cases acc with
  | none =>
    simp only [shootTargetFold]
    rw [if_neg (by rw [ha]; exact fun hc => nomatch hc)]
    rw [if_pos hth]
    exact ⟨hd.1, hd.2, _, rfl, le_refl _⟩
  | some t =>
    obtain ⟨k, u, dc⟩ := t
    simp only [shootTargetFold]
    rw [if_neg (by rw [ha]; exact fun hc => nomatch hc)]
    by_cases hc : |normAngle (atan2 (hd.2.y - py) (hd.2.x - px) - pangle)|
          < aimThreshold ∧
        Real.sqrt ((hd.2.x - px) * (hd.2.x - px) + (hd.2.y - py) * (hd.2.y - py)) < dc
    · rw [if_pos hc]
      exact ⟨hd.1, hd.2, _, rfl, le_refl _⟩
    · rw [if_neg hc]
      refine ⟨k, u, dc, rfl, ?_⟩
      rcases not_and_or.mp hc with h1 | h1
      · exact absurd hth h1
      · exact not_lt.mp h1

/-- The selected distance is minimal: it is at most the distance of
every alive enemy inside the angular threshold in the searched list. -/
lemma shootTargetFold_nearest (px py pangle : ℝ) :
    ∀ (l : List (ℕ × Enemy)) (acc : Option (ℕ × Enemy × ℝ)) (i : ℕ) (e : Enemy) (d : ℝ),
      l.foldl (shootTargetFold px py pangle) acc = some (i, e, d) →
      ∀ jg : ℕ × Enemy, jg ∈ l → jg.2.alive = true →
        |normAngle (atan2 (jg.2.y - py) (jg.2.x - px) - pangle)| < aimThreshold →
        d ≤ Real.sqrt ((jg.2.x - px) * (jg.2.x - px) + (jg.2.y - py) * (jg.2.y - py)) := by
  intro l
  induction l with
  | nil =>
    intro acc i e d h jg hmem
    exact absurd hmem (List.not_mem_nil jg)
  | cons hd tl ih =>
    intro acc i e d h jg hmem ha hth
    rw [List.foldl_cons] at h
    rcases List.mem_cons.mp hmem with rfl | hmem2
    · obtain ⟨k2, u2, d2, heq, hle⟩ := shootTargetFold_head_le px py pangle acc jg ha hth
      rw [heq] at h
      exact le_trans (shootTargetFold_mono px py pangle tl k2 u2 d2 i e d h) hle
    · exact ih _ i e d h jg hmem2 ha hth

lemma shootTarget_spec (px py pangle : ℝ) (es : List Enemy) (i : ℕ) (e : Enemy) (d : ℝ)
    (h : shootTarget px py pangle es = some (i, e, d)) :
    ∃ hi : i < es.length, es.get ⟨i, hi⟩ = e ∧ e.alive = true ∧
      |normAngle (atan2 (e.y - py) (e.x - px) - pangle)| < aimThreshold ∧
      d = Real.sqrt ((e.x - px) * (e.x - px) + (e.y - py) * (e.y - py)) ∧
      ∀ (j : ℕ) (hj : j < es.length),
        (es.get ⟨j, hj⟩).alive = true →
        |normAngle (atan2 ((es.get ⟨j, hj⟩).y - py)
            ((es.get ⟨j, hj⟩).x - px) - pangle)| < aimThreshold →
        d ≤ Real.sqrt (((es.get ⟨j, hj⟩).x - px) * ((es.get ⟨j, hj⟩).x - px)
          + ((es.get ⟨j, hj⟩).y - py) * ((es.get ⟨j, hj⟩).y - py)) := by
  have hne := h
  unfold shootTarget at h
  rcases shootTargetFold_spec px py pangle es.enum none i e d h with h2 | h2
  · exact absurd h2 (by simp)
  · obtain ⟨hmem, halive, hang, hd⟩ := h2
    rw [List.mk_mem_enum_iff_getElem?] at hmem
    rw [List.getElem?_eq_some] at hmem
    obtain ⟨hi, hget⟩ := hmem
    refine ⟨hi, ?_, halive, hang, hd, ?_⟩
    · simpa using hget
    · intro j hj haj hthj
      have hjmem : (j, es.get ⟨j, hj⟩) ∈ es.enum := by
        rw [List.mk_mem_enum_iff_getElem?, List.get_eq_getElem]
        exact List.getElem?_eq_getElem hj
      exact shootTargetFold_nearest px py pangle es.enum none i e d h
        (j, es.get ⟨j, hj⟩) hjmem haj hthj

/-! ### Field-preservation lemmas for the combat step -/

lemma setSelWeapon_fields (s : GameState) (w : Weapon) :
    (s.setSelWeapon w).playerX = s.playerX ∧ (s.setSelWeapon w).playerY = s.playerY ∧
    (s.setSelWeapon w).playerAngle = s.playerAngle ∧
    (s.setSelWeapon w).enemies = s.enemies ∧
    (s.setSelWeapon w).decorations = s.decorations ∧
    (s.setSelWeapon w).selectedWeapon = s.selectedWeapon ∧
    (s.setSelWeapon w).kills = s.kills ∧
    (s.setSelWeapon w).reloading = s.reloading ∧
    (s.setSelWeapon w).gameOver = s.gameOver := by
  unfold GameState.setSelWeapon
  cases s.selectedWeapon <;> exact ⟨rfl, rfl, rfl, rfl, rfl, rfl, rfl, rfl, rfl⟩

lemma setSelWeapon_selWeapon (s : GameState) (w : Weapon) :
    (s.setSelWeapon w).selWeapon = w := by
  unfold GameState.setSelWeapon GameState.selWeapon
  cases h : s.selectedWeapon <;> simp [h]

lemma setSelWeapon_other (s : GameState) (w : Weapon) :
    (s.selectedWeapon = WeaponKey.shotgun → (s.setSelWeapon w).laser = s.laser) ∧
    (s.selectedWeapon = WeaponKey.laser → (s.setSelWeapon w).shotgun = s.shotgun) := by
  unfold GameState.setSelWeapon
  cases h : s.selectedWeapon <;> constructor <;> intro h2 <;> first | rfl | simp at h2

lemma reloadWeapon_fields (s : GameState) :
    (reloadWeapon s).playerX = s.playerX ∧ (reloadWeapon s).playerY = s.playerY ∧
    (reloadWeapon s).playerAngle = s.playerAngle ∧
    (reloadWeapon s).enemies = s.enemies ∧
    (reloadWeapon s).decorations = s.decorations ∧
    (reloadWeapon s).selectedWeapon = s.selectedWeapon ∧
    (reloadWeapon s).kills = s.kills ∧
    (reloadWeapon s).shotgun = s.shotgun ∧ (reloadWeapon s).laser = s.laser ∧
    (reloadWeapon s).selWeapon = s.selWeapon := by
  rcases reloadWeapon_cases s with h | h <;> rw [h] <;>
    exact ⟨rfl, rfl, rfl, rfl, rfl, rfl, rfl, rfl, rfl, selWeapon_congr rfl rfl rfl⟩

lemma setSel_playerX (s : GameState) (w : Weapon) :
    (s.setSelWeapon w).playerX = s.playerX := (setSelWeapon_fields s w).1

lemma setSel_playerY (s : GameState) (w : Weapon) :
    (s.setSelWeapon w).playerY = s.playerY := (setSelWeapon_fields s w).2.1

lemma setSel_playerAngle (s : GameState) (w : Weapon) :
    (s.setSelWeapon w).playerAngle = s.playerAngle := (setSelWeapon_fields s w).2.2.1

lemma setSel_enemies (s : GameState) (w : Weapon) :
    (s.setSelWeapon w).enemies = s.enemies := (setSelWeapon_fields s w).2.2.2.1

lemma setSel_decorations (s : GameState) (w : Weapon) :
    (s.setSelWeapon w).decorations = s.decorations := (setSelWeapon_fields s w).2.2.2.2.1

lemma setSel_selectedWeapon (s : GameState) (w : Weapon) :
    (s.setSelWeapon w).selectedWeapon = s.selectedWeapon :=
  (setSelWeapon_fields s w).2.2.2.2.2.1

lemma setSel_kills (s : GameState) (w : Weapon) :
    (s.setSelWeapon w).kills = s.kills := (setSelWeapon_fields s w).2.2.2.2.2.2.1

lemma selWeapon_update_timers (u : GameState) (a b : ℚ) :
    ({ u with muzzleTimer := a, bulletTimer := b } : GameState).selWeapon = u.selWeapon :=
  selWeapon_congr rfl rfl rfl

lemma selWeapon_update_enemies_kills (u : GameState) (E : List Enemy) (K : ℕ) :
    ({ u with enemies := E, kills := K } : GameState).selWeapon = u.selWeapon :=
  selWeapon_congr rfl rfl rfl

/-- Normal form of `shootWeapon` on the firing path when no target is in
the threshold: only the magazine decrement, the visual timers and
possibly the auto-reload flag change. -/
lemma shootWeapon_fire_none (s : GameState) (h1 : s.gameOver = false)
    (h2 : s.reloading = false) (h3 : ¬s.selWeapon.magazine = 0)
    (ht : shootTarget s.playerX s.playerY s.playerAngle s.enemies = none) :
    shootWeapon s =
      (if ({ s.setSelWeapon { s.selWeapon with magazine := s.selWeapon.magazine - 1 } with
            muzzleTimer := 3/20, bulletTimer := 1/10 } : GameState).selWeapon.magazine = 0 ∧
          0 < ({ s.setSelWeapon { s.selWeapon with magazine := s.selWeapon.magazine - 1 } with
            muzzleTimer := 3/20, bulletTimer := 1/10 } : GameState).selWeapon.totalAmmo
        then reloadWeapon { s.setSelWeapon
            { s.selWeapon with magazine := s.selWeapon.magazine - 1 } with
            muzzleTimer := 3/20, bulletTimer := 1/10 }
        else { s.setSelWeapon { s.selWeapon with magazine := s.selWeapon.magazine - 1 } with
            muzzleTimer := 3/20, bulletTimer := 1/10 }) := by
  unfold shootWeapon
  simp only [h1, h2, Bool.or_self, Bool.false_eq_true, if_false, h3,
    setSel_playerX, setSel_playerY, setSel_playerAngle, setSel_enemies, ht]

/-- Normal form of `shootWeapon` on the firing path when a target is
selected: additionally the slot of the target is overwritten by
`Enemy.hit` and the kill counter takes the returned value. -/
lemma shootWeapon_fire_some (s : GameState) (i : ℕ) (e : Enemy) (d : ℝ)
    (h1 : s.gameOver = false) (h2 : s.reloading = false)
    (h3 : ¬s.selWeapon.magazine = 0)
    (ht : shootTarget s.playerX s.playerY s.playerAngle s.enemies = some (i, e, d)) :
    shootWeapon s =
      (if ({ s.setSelWeapon { s.selWeapon with magazine := s.selWeapon.magazine - 1 } with
            enemies := s.enemies.set i (Enemy.hit e s.selWeapon.damage s.kills).1,
            kills := (Enemy.hit e s.selWeapon.damage s.kills).2,
            muzzleTimer := 3/20, bulletTimer := 1/10 } : GameState).selWeapon.magazine = 0 ∧
          0 < ({ s.setSelWeapon { s.selWeapon with magazine := s.selWeapon.magazine - 1 } with
            enemies := s.enemies.set i (Enemy.hit e s.selWeapon.damage s.kills).1,
            kills := (Enemy.hit e s.selWeapon.damage s.kills).2,
            muzzleTimer := 3/20, bulletTimer := 1/10 } : GameState).selWeapon.totalAmmo
        then reloadWeapon { s.setSelWeapon
            { s.selWeapon with magazine := s.selWeapon.magazine - 1 } with
            enemies := s.enemies.set i (Enemy.hit e s.selWeapon.damage s.kills).1,
            kills := (Enemy.hit e s.selWeapon.damage s.kills).2,
            muzzleTimer := 3/20, bulletTimer := 1/10 }
        else { s.setSelWeapon { s.selWeapon with magazine := s.selWeapon.magazine - 1 } with
            enemies := s.enemies.set i (Enemy.hit e s.selWeapon.damage s.kills).1,
            kills := (Enemy.hit e s.selWeapon.damage s.kills).2,
            muzzleTimer := 3/20, bulletTimer := 1/10 }) := by
  unfold shootWeapon
  simp only [h1, h2, Bool.or_self, Bool.false_eq_true, if_false, h3,
    setSel_playerX, setSel_playerY, setSel_playerAngle, setSel_enemies, setSel_kills, ht]

lemma branch_fields (s3 : GameState) (v : GameState)
    (hv : v = reloadWeapon s3 ∨ v = s3) :
    v.playerX = s3.playerX ∧ v.playerY = s3.playerY ∧
    v.playerAngle = s3.playerAngle ∧ v.enemies = s3.enemies ∧
    v.decorations = s3.decorations ∧ v.selectedWeapon = s3.selectedWeapon ∧
    v.laser = s3.laser ∧ v.shotgun = s3.shotgun ∧ v.selWeapon = s3.selWeapon := by
  obtain ⟨rpx, rpy, rpa, ren, rdec, rsel, rkil, rsho, rlas, rselw⟩ :=
    reloadWeapon_fields s3
  rcases hv with rfl | rfl
  · exact ⟨rpx, rpy, rpa, ren, rdec, rsel, rlas, rsho, rselw⟩
  · exact ⟨rfl, rfl, rfl, rfl, rfl, rfl, rfl, rfl, rfl⟩

/-- C10: a shot with the game running, no reload pending and a loaded
magazine always consumes exactly one round of the selected weapon (also
when no alive enemy is inside the angular threshold), leaves the player
pose, the decorations, the weapon selection and the other weapon
untouched, and modifies at most one enemy: an alive one within the
angular threshold whose distance to the player is minimal among all
alive in-threshold enemies (the nearest, per the `dist < minDist`
search at line 1161), through `Enemy.hit` with the damage value of the
selected weapon. -/
theorem c10_shot_frame_effects (s : GameState)
    (h1 : s.gameOver = false) (h2 : s.reloading = false)
    (h3 : ¬s.selWeapon.magazine = 0) :
    (shootWeapon s).selWeapon.magazine = s.selWeapon.magazine - 1 ∧
    (shootWeapon s).playerX = s.playerX ∧
    (shootWeapon s).playerY = s.playerY ∧
    (shootWeapon s).playerAngle = s.playerAngle ∧
    (shootWeapon s).decorations = s.decorations ∧
    (shootWeapon s).selectedWeapon = s.selectedWeapon ∧
    (s.selectedWeapon = WeaponKey.shotgun → (shootWeapon s).laser = s.laser) ∧
    (s.selectedWeapon = WeaponKey.laser → (shootWeapon s).shotgun = s.shotgun) ∧
    ((shootWeapon s).enemies = s.enemies ∨
      ∃ i, ∃ hi : i < s.enemies.length,
        (s.enemies.get ⟨i, hi⟩).alive = true ∧
        |normAngle (atan2 ((s.enemies.get ⟨i, hi⟩).y - s.playerY)
            ((s.enemies.get ⟨i, hi⟩).x - s.playerX) - s.playerAngle)| < aimThreshold ∧
        (∀ (j : ℕ) (hj : j < s.enemies.length),
          (s.enemies.get ⟨j, hj⟩).alive = true →
          |normAngle (atan2 ((s.enemies.get ⟨j, hj⟩).y - s.playerY)
              ((s.enemies.get ⟨j, hj⟩).x - s.playerX) - s.playerAngle)| < aimThreshold →
          Real.sqrt
              (((s.enemies.get ⟨i, hi⟩).x - s.playerX) * ((s.enemies.get ⟨i, hi⟩).x - s.playerX)
                + ((s.enemies.get ⟨i, hi⟩).y - s.playerY) * ((s.enemies.get ⟨i, hi⟩).y - s.playerY))
            ≤ Real.sqrt
              (((s.enemies.get ⟨j, hj⟩).x - s.playerX) * ((s.enemies.get ⟨j, hj⟩).x - s.playerX)
                + ((s.enemies.get ⟨j, hj⟩).y - s.playerY) * ((s.enemies.get ⟨j, hj⟩).y - s.playerY))) ∧
        (shootWeapon s).enemies
          = s.enemies.set i
              (Enemy.hit (s.enemies.get ⟨i, hi⟩) s.selWeapon.damage s.kills).1) := by
  rcases hTop : shootTarget s.playerX s.playerY s.playerAngle s.enemies with _ | ⟨i, e, d⟩
  · -- no target: only the magazine and the timers change
    rw [shootWeapon_fire_none s h1 h2 h3 hTop]
    set s3 : GameState :=
      { s.setSelWeapon { s.selWeapon with magazine := s.selWeapon.magazine - 1 } with
        muzzleTimer := 3/20, bulletTimer := 1/10 } with hs3
    have hv : (if s3.selWeapon.magazine = 0 ∧ 0 < s3.selWeapon.totalAmmo
        then reloadWeapon s3 else s3) = reloadWeapon s3 ∨
        (if s3.selWeapon.magazine = 0 ∧ 0 < s3.selWeapon.totalAmmo
        then reloadWeapon s3 else s3) = s3 := by
      split
      · exact Or.inl rfl
      · exact Or.inr rfl
    obtain ⟨vpx, vpy, vpa, ven, vdec, vsel, vlas, vsho, vselw⟩ := branch_fields s3 _ hv
    have e3w : s3.selWeapon = { s.selWeapon with magazine := s.selWeapon.magazine - 1 } := by
      rw [hs3]
      rw [selWeapon_update_timers, setSelWeapon_selWeapon]
    refine ⟨?_, ?_, ?_, ?_, ?_, ?_, ?_, ?_, Or.inl ?_⟩
    · rw [vselw, e3w]
    · rw [vpx, hs3]
      exact setSel_playerX _ _
    · rw [vpy, hs3]
      exact setSel_playerY _ _
    · rw [vpa, hs3]
      exact setSel_playerAngle _ _
    · rw [vdec, hs3]
      exact setSel_decorations _ _
    · rw [vsel, hs3]
      exact setSel_selectedWeapon _ _
    · intro hk
      rw [vlas, hs3]
      exact (setSelWeapon_other s _).1 hk
    · intro hk
      rw [vsho, hs3]
      exact (setSelWeapon_other s _).2 hk
    · rw [ven, hs3]
      exact setSel_enemies _ _
  · -- a target was selected: additionally one enemy slot is rewritten
    obtain ⟨hi, hget, halive, hang, hdist, hnear⟩ :=
      shootTarget_spec s.playerX s.playerY s.playerAngle s.enemies i e d hTop
    rw [shootWeapon_fire_some s i e d h1 h2 h3 hTop]
    set s3 : GameState :=
      { s.setSelWeapon { s.selWeapon with magazine := s.selWeapon.magazine - 1 } with
        enemies := s.enemies.set i (Enemy.hit e s.selWeapon.damage s.kills).1,
        kills := (Enemy.hit e s.selWeapon.damage s.kills).2,
        muzzleTimer := 3/20, bulletTimer := 1/10 } with hs3
    have hv : (if s3.selWeapon.magazine = 0 ∧ 0 < s3.selWeapon.totalAmmo
        then reloadWeapon s3 else s3) = reloadWeapon s3 ∨
        (if s3.selWeapon.magazine = 0 ∧ 0 < s3.selWeapon.totalAmmo
        then reloadWeapon s3 else s3) = s3 := by
      split
      · exact Or.inl rfl
      · exact Or.inr rfl
    obtain ⟨vpx, vpy, vpa, ven, vdec, vsel, vlas, vsho, vselw⟩ := branch_fields s3 _ hv
    have e3w : s3.selWeapon = { s.selWeapon with magazine := s.selWeapon.magazine - 1 } := by
      rw [hs3]
      rw [show (s3 : GameState).selWeapon = s3.selWeapon from rfl]
      exact (selWeapon_congr rfl rfl rfl).trans (setSelWeapon_selWeapon _ _)
    refine ⟨?_, ?_, ?_, ?_, ?_, ?_, ?_, ?_, Or.inr ⟨i, hi, ?_, ?_, ?_, ?_⟩⟩
    · rw [vselw, e3w]
    · rw [vpx, hs3]
      exact setSel_playerX _ _
    · rw [vpy, hs3]
      exact setSel_playerY _ _
    · rw [vpa, hs3]
      exact setSel_playerAngle _ _
    · rw [vdec, hs3]
      exact setSel_decorations _ _
    · rw [vsel, hs3]
      exact setSel_selectedWeapon _ _
    · intro hk
      rw [vlas, hs3]
      exact (setSelWeapon_other s _).1 hk
    · intro hk
      rw [vsho, hs3]
      exact (setSelWeapon_other s _).2 hk
    · rw [hget]
      exact halive
    · rw [hget]
      exact hang
    · intro j hj haj hthj
      rw [hget, ← hdist]
      exact hnear j hj haj hthj
    · rw [ven, hs3, hget]

/-! ### Concrete two-shot scenario for the kill counter -/

/-- A freshly spawned enemy two cells straight ahead of the player. -/
noncomputable def c1Enemy : Enemy := Enemy.spawn (9/2) (5/2)

/-- Player at the spawn pose facing angle 0, rifle selected (damage 60,
magazine 8), a single alive enemy with 60 health straight ahead. -/
noncomputable def c1State : GameState :=
  { playerX := 5/2, playerY := 5/2, playerAngle := 0, enemies := [c1Enemy],
    decorations := [], shotgun := shotgunInit, laser := laserInit,
    selectedWeapon := .shotgun, reloading := false, gameOver := false, kills := 0,
    muzzleTimer := 0, bulletTimer := 0 }

/-- Target selection for a single alive enemy straight ahead of a
player at `(5/2, 5/2)` facing angle 0: bearing 0 is within the
threshold and the distance is 2. -/
lemma shootTarget_single_onaxis (e : Enemy) (he : e.alive = true)
    (hx : e.x = 9/2) (hy : e.y = 5/2) :
    shootTarget (5/2) (5/2) 0 [e] = some (0, e, 2) := by
  unfold shootTarget
  rw [show ([e].enum) = [(0, e)] from rfl]
  rw [List.foldl_cons, List.foldl_nil]
  simp only [shootTargetFold]
  rw [if_neg (by rw [he]; exact fun hc => nomatch hc)]
  have hdy : ((0, e).2.y : ℝ) - 5/2 = 0 := by
    show e.y - (5/2 : ℝ) = 0
    rw [hy]
    ring
  have hdx : ((0, e).2.x : ℝ) - 5/2 = 2 := by
    show e.x - (5/2 : ℝ) = 2
    rw [hx]
    norm_num
  rw [hdx, hdy]
  have hatan : atan2 0 2 = 0 := by
    unfold atan2
    rw [Complex.arg_eq_zero_iff]
    exact ⟨by norm_num, rfl⟩
  have hnorm : normAngle (atan2 0 2 - 0) = 0 := by
    rw [hatan, sub_zero]
    unfold normAngle
    have hpi := Real.pi_pos
    rw [if_neg (by linarith), if_neg (by linarith)]
  have hdist : Real.sqrt ((2 : ℝ) * 2 + 0 * 0) = 2 := by
    rw [show (2 : ℝ) * 2 + 0 * 0 = 2 ^ 2 by norm_num]
    exact Real.sqrt_sq (by norm_num)
  rw [hnorm, hdist]
  rw [if_pos]
  rw [abs_zero]
  unfold aimThreshold FOV
  positivity

/-- The enemy after the first hit: health 0, `dying` set, but `alive`
still `true` (it is cleared only when the death timer elapses in
`gameLoop`). -/
noncomputable def c1EnemyDying : Enemy :=
  { x := 9/2, y := 5/2, health := 0, alive := true, dying := true,
    deathTimer := 3/5, scale := 1 }

lemma c1_hit_first : Enemy.hit c1Enemy 60 0 = (c1EnemyDying, 1) := by
  unfold Enemy.hit
  rw [if_neg (by exact fun hc => nomatch hc)]
  rw [if_pos (by norm_num [c1Enemy, Enemy.spawn])]
  refine Prod.ext ?_ rfl
  show ({ c1Enemy with
    health := c1Enemy.health - 60, dying := true, deathTimer := 3/5,
    scale := 1 } : Enemy) = c1EnemyDying
  unfold c1Enemy Enemy.spawn c1EnemyDying
  simp only [Enemy.mk.injEq]
  norm_num

lemma c1_hit_second : Enemy.hit c1EnemyDying 60 1 = ({ c1EnemyDying with health := 0 - 60 }, 2) := by
  unfold Enemy.hit
  rw [if_neg (by exact fun hc => nomatch hc)]
  rw [if_pos (by norm_num [c1EnemyDying])]
  refine Prod.ext ?_ rfl
  show ({ c1EnemyDying with
    health := c1EnemyDying.health - 60, dying := true, deathTimer := 3/5,
    scale := 1 } : Enemy) = { c1EnemyDying with health := 0 - 60 }
  unfold c1EnemyDying
  simp only [Enemy.mk.injEq]

/-- State after the first shot. -/
noncomputable def c1After1 : GameState :=
  { playerX := 5/2, playerY := 5/2, playerAngle := 0, enemies := [c1EnemyDying],
    decorations := [], shotgun := { shotgunInit with magazine := 7 }, laser := laserInit,
    selectedWeapon := .shotgun, reloading := false, gameOver := false, kills := 1,
    muzzleTimer := 3/20, bulletTimer := 1/10 }

lemma c1_step_first : shootWeapon c1State = c1After1 := by
  have htsel : shootTarget c1State.playerX c1State.playerY c1State.playerAngle
      c1State.enemies = some (0, c1Enemy, 2) := by
    show shootTarget (5/2) (5/2) 0 [c1Enemy] = some (0, c1Enemy, 2)
    exact shootTarget_single_onaxis c1Enemy rfl rfl rfl
  rw [shootWeapon_fire_some c1State 0 c1Enemy 2 rfl rfl (by decide) htsel]
  rw [if_neg]
  · show ({ c1State.setSelWeapon { c1State.selWeapon with
        magazine := c1State.selWeapon.magazine - 1 } with
        enemies := c1State.enemies.set 0 (Enemy.hit c1Enemy c1State.selWeapon.damage
          c1State.kills).1,
        kills := (Enemy.hit c1Enemy c1State.selWeapon.damage c1State.kills).2,
        muzzleTimer := 3/20, bulletTimer := 1/10 } : GameState) = c1After1
    rw [show c1State.selWeapon.damage = (60 : ℚ) from rfl,
      show c1State.kills = 0 from rfl, c1_hit_first]
    rfl
  · rw [show c1State.selWeapon.damage = (60 : ℚ) from rfl,
      show c1State.kills = 0 from rfl, c1_hit_first]
    intro hc
    exact absurd hc.1 (by decide)

lemma c1_step_second : (shootWeapon c1After1).kills = 2 := by
  have htsel : shootTarget c1After1.playerX c1After1.playerY c1After1.playerAngle
      c1After1.enemies = some (0, c1EnemyDying, 2) := by
    show shootTarget (5/2) (5/2) 0 [c1EnemyDying] = some (0, c1EnemyDying, 2)
    exact shootTarget_single_onaxis c1EnemyDying rfl rfl rfl
  rw [shootWeapon_fire_some c1After1 0 c1EnemyDying 2 rfl rfl (by decide) htsel]
  rw [if_neg]
  · rw [show c1After1.selWeapon.damage = (60 : ℚ) from rfl,
      show c1After1.kills = 1 from rfl, c1_hit_second]
  · rw [show c1After1.selWeapon.damage = (60 : ℚ) from rfl,
      show c1After1.kills = 1 from rfl, c1_hit_second]
    intro hc
    exact absurd hc.1 (by decide)

/-- C1 (code bug): the kill counter is incremented twice for the same
enemy object.  `Enemy.hit` only guards on `alive`, which stays `true`
while the death animation runs, and the target search of `shootWeapon` also
only skips `alive === false` enemies; so a second shot at the single,
already dying enemy re-enters the `health <= 0` branch: one enemy,
`kills` ends at 2. -/
theorem c1_kills_double_counted :
    c1State.enemies.length = 1 ∧
    (shootWeapon c1State).kills = 1 ∧
    (shootWeapon c1State).enemies = [c1EnemyDying] ∧
    c1EnemyDying.alive = true ∧ c1EnemyDying.dying = true ∧
    (shootWeapon (shootWeapon c1State)).kills = 2 := by
  rw [c1_step_first]
  exact ⟨rfl, rfl, rfl, rfl, rfl, c1_step_second⟩

/-- Concrete state for the C10 witness: rifle selected with a full
magazine and no enemy in sight (a miss still costs one round). -/
noncomputable def c10State : GameState :=
  { playerX := 5/2, playerY := 5/2, playerAngle := 0, enemies := [], decorations := [],
    shotgun := shotgunInit, laser := laserInit, selectedWeapon := .shotgun,
    reloading := false, gameOver := false, kills := 0, muzzleTimer := 0, bulletTimer := 0 }

/-- Witness for C10 at `c10State`. -/
theorem c10_shot_frame_effects_witness :
    (shootWeapon c10State).selWeapon.magazine = c10State.selWeapon.magazine - 1 ∧
    (shootWeapon c10State).playerX = c10State.playerX ∧
    (shootWeapon c10State).playerY = c10State.playerY ∧
    (shootWeapon c10State).playerAngle = c10State.playerAngle ∧
    (shootWeapon c10State).decorations = c10State.decorations ∧
    (shootWeapon c10State).selectedWeapon = c10State.selectedWeapon ∧
    (c10State.selectedWeapon = WeaponKey.shotgun →
      (shootWeapon c10State).laser = c10State.laser) ∧
    (c10State.selectedWeapon = WeaponKey.laser →
      (shootWeapon c10State).shotgun = c10State.shotgun) ∧
    ((shootWeapon c10State).enemies = c10State.enemies ∨
      ∃ i, ∃ hi : i < c10State.enemies.length,
        (c10State.enemies.get ⟨i, hi⟩).alive = true ∧
        |normAngle (atan2 ((c10State.enemies.get ⟨i, hi⟩).y - c10State.playerY)
            ((c10State.enemies.get ⟨i, hi⟩).x - c10State.playerX)
            - c10State.playerAngle)| < aimThreshold ∧
        (∀ (j : ℕ) (hj : j < c10State.enemies.length),
          (c10State.enemies.get ⟨j, hj⟩).alive = true →
          |normAngle (atan2 ((c10State.enemies.get ⟨j, hj⟩).y - c10State.playerY)
              ((c10State.enemies.get ⟨j, hj⟩).x - c10State.playerX)
              - c10State.playerAngle)| < aimThreshold →
          Real.sqrt
              (((c10State.enemies.get ⟨i, hi⟩).x - c10State.playerX)
                  * ((c10State.enemies.get ⟨i, hi⟩).x - c10State.playerX)
                + ((c10State.enemies.get ⟨i, hi⟩).y - c10State.playerY)
                  * ((c10State.enemies.get ⟨i, hi⟩).y - c10State.playerY))
            ≤ Real.sqrt
              (((c10State.enemies.get ⟨j, hj⟩).x - c10State.playerX)
                  * ((c10State.enemies.get ⟨j, hj⟩).x - c10State.playerX)
                + ((c10State.enemies.get ⟨j, hj⟩).y - c10State.playerY)
                  * ((c10State.enemies.get ⟨j, hj⟩).y - c10State.playerY))) ∧
        (shootWeapon c10State).enemies
          = c10State.enemies.set i
              (Enemy.hit (c10State.enemies.get ⟨i, hi⟩) c10State.selWeapon.damage
                c10State.kills).1) :=
  c10_shot_frame_effects c10State rfl rfl (by decide)

end EasterIsland
